import Mathlib

/-!
Verification of the Sparkify data-lake ETL job (src/etl.py) against its
natural-language specification.

The script is a two-stage batch job over relational tables:

* `process_song_data` (etl.py lines 42-87): reads song metadata, writes the
  `songs` and `artists` dimension tables, registers the temp view
  `songs_table_view`;
* `process_log_data` (etl.py lines 92-176): reads event logs, filters to
  page == "NextSong", writes `users` and `time`, joins against the view and
  writes the `songplays` fact table;
* `main` (lines 182-201) runs the song stage, then the log stage.

Tables are embedded as Lean lists of rows; Spark `distinct()` is `List.dedup`,
an inner join is a `flatMap`/`filter` over pairs, and `overwrite`-mode writes
replace the stored table.  Float-valued columns (track duration and length)
are embedded as exact rationals, and epoch-millisecond timestamps as naturals.
Rationals are built with `mkRat` throughout so that every definition evaluates
inside the kernel.

Line 143 of etl.py is syntactically malformed Python: in
  df=df.withColumn(<string literal start_time>(df[<ts>]/1000).cast(<timestamp>))
the string literal start_time is applied to the cast column as if it were a
function, so the statement raises TypeError at run time.  The defective
pipeline is embedded as `process_log_data` (an `Except` computation that fails
at that step); the spec directs that a reimplementation derive `start_time`
solely by casting ts/1000 to a timestamp type, and `process_log_data_fixed`
embeds the pipeline with exactly that one-line correction, which is also the
evident reading of the malformed line (its right-hand side expression is
`(df[<ts>]/1000).cast(<timestamp>)`).
-/

set_option maxRecDepth 4000

/-- Civil date from a count of days since 1970-01-01 (proleptic Gregorian,
    Hinnant algorithm, restricted to days on or after the epoch).
    Returns (year, month, day). -/
def daysToCivil (z : ℕ) : ℕ × ℕ × ℕ :=
  let days := z + 719468
  let era := days / 146097
  let doe := days % 146097
  let yoe := (doe - doe / 1460 + doe / 36524 - doe / 146096) / 365
  let y := yoe + era * 400
  let doy := doe - (365 * yoe + yoe / 4 - yoe / 100)
  let mp := (5 * doy + 2) / 153
  let d := doy - (153 * mp + 2) / 5 + 1
  let m := if mp < 10 then mp + 3 else mp - 9
  (if m ≤ 2 then y + 1 else y, m, d)

/-- Days since 1970-01-01 of a civil date (valid for dates from 1970 on). -/
def daysFromCivil (y m d : ℕ) : ℕ :=
  let yy := if m ≤ 2 then y - 1 else y
  let era := yy / 400
  let yoe := yy % 400
  let doy := (153 * (if 2 < m then m - 3 else m + 9) + 2) / 5 + d - 1
  let doe := yoe * 365 + yoe / 4 - yoe / 100 + doy
  era * 146097 + doe - 719468

/-- ISO-8601 week number of the day `z` (days since epoch), the semantics of
    the weekofyear function applied at etl.py line 146. -/
def weekOfYear (z : ℕ) : ℕ :=
  let dow := (z + 3) % 7
  let th := z + 3 - dow
  let y := (daysToCivil th).1
  (th - daysFromCivil y 1 1) / 7 + 1

/-- Short weekday name of the day `z` (days since epoch), the semantics of
    date_format with pattern E applied at etl.py line 147 (1970-01-01 was a
    Thursday). -/
def weekdayName (z : ℕ) : String :=
  match (z + 4) % 7 with
  | 0 => "Sun"
  | 1 => "Mon"
  | 2 => "Tue"
  | 3 => "Wed"
  | 4 => "Thu"
  | 5 => "Fri"
  | _ => "Sat"

/-- Whole seconds of a nonnegative rational timestamp (its floor). -/
def secsOf (t : ℚ) : ℕ := t.num.toNat / t.den

/-- UTC calendar year of a timestamp (semantics of the year function,
    etl.py line 144). -/
def yearOf (t : ℚ) : ℕ := (daysToCivil (secsOf t / 86400)).1

/-- UTC calendar month of a timestamp (semantics of the month function,
    etl.py line 145). -/
def monthOf (t : ℚ) : ℕ := (daysToCivil (secsOf t / 86400)).2.1

/-- UTC day of month of a timestamp (semantics of dayofmonth,
    etl.py line 148). -/
def dayOf (t : ℚ) : ℕ := (daysToCivil (secsOf t / 86400)).2.2

/-- UTC hour of day of a timestamp (semantics of the hour function,
    etl.py line 149). -/
def hourOf (t : ℚ) : ℕ := secsOf t % 86400 / 3600

/-- UTC minute of hour of a timestamp. -/
def minuteOf (t : ℚ) : ℕ := secsOf t % 3600 / 60

/-- UTC second of minute of a timestamp. -/
def secondOf (t : ℚ) : ℕ := secsOf t % 60

/-- ISO week number column of a timestamp (etl.py line 146). -/
def weekOf (t : ℚ) : ℕ := weekOfYear (secsOf t / 86400)

/-- Weekday column of a timestamp (etl.py line 147). -/
def weekdayOf (t : ℚ) : String := weekdayName (secsOf t / 86400)

/-- Epoch seconds of a UTC civil date-time; used to state the time-derivation
    example of the spec. -/
def secondsOfCivil (y m d hh mm ss : ℕ) : ℕ :=
  daysFromCivil y m d * 86400 + hh * 3600 + mm * 60 + ss

/-- Timestamp obtained by casting ts/1000 to a timestamp type, where `ts` is
    in epoch milliseconds: the expression (df[<ts>]/1000).cast(<timestamp>)
    appearing (malformed) on etl.py line 143 and mandated by the spec as the
    sole derivation of start_time.  The cast keeps the fractional second. -/
def startTimeOf (ts : ℕ) : ℚ := mkRat (ts : ℤ) 1000

/-- One record of the song metadata JSON read at etl.py line 70, restricted to
    the columns the script uses. -/
structure SongRecord where
  song_id : String
  title : String
  artist_id : String
  year : ℕ
  duration : ℚ
  artist_name : String
  artist_location : String
  artist_latitude : ℚ
  artist_longitude : ℚ
deriving DecidableEq

/-- One record of the event-log JSON read at etl.py line 114, restricted to
    the columns the script uses. -/
structure LogRecord where
  page : String
  song : String
  artist : String
  length : ℚ
  ts : ℕ
  userId : String
  firstName : String
  lastName : String
  gender : String
  level : String
  sessionId : ℕ
  location : String
  userAgent : String
deriving DecidableEq

/-- Row of the `songs` dimension table (etl.py line 73). -/
structure SongsRow where
  song_id : String
  title : String
  artist_id : String
  year : ℕ
  duration : ℚ
deriving DecidableEq

/-- Row of the temp view `songs_table_view` (etl.py line 76): the `songs`
    columns plus artist_name. -/
structure SongViewRow where
  song_id : String
  title : String
  artist_id : String
  year : ℕ
  duration : ℚ
  artist_name : String
deriving DecidableEq

/-- Row of the `artists` dimension table (etl.py lines 83-84). -/
structure ArtistsRow where
  artist_id : String
  artist_name : String
  artist_location : String
  artist_latitude : ℚ
  artist_longitude : ℚ
deriving DecidableEq

/-- Row of the `users` dimension table (etl.py lines 124-128). -/
structure UsersRow where
  user_id : String
  first_name : String
  last_name : String
  gender : String
  level : String
deriving DecidableEq

/-- Row of the `time` dimension table (etl.py lines 151-152). -/
structure TimeRow where
  start_time : ℚ
  hour : ℕ
  day : ℕ
  week : ℕ
  weekday : String
  year : ℕ
  month : ℕ
deriving DecidableEq

/-- Row of the `songplays` fact table before the synthetic id column
    (etl.py lines 169-171). -/
structure SongplaysRow where
  start_time : ℚ
  userId : String
  level : String
  song_id : String
  artist_id : String
  sessionId : ℕ
  location : String
  userAgent : String
  year : ℕ
  month : ℕ
deriving DecidableEq

/-- Projection of a song record to a `songs` row (etl.py line 73). -/
def songRowOf (r : SongRecord) : SongsRow :=
  ⟨r.song_id, r.title, r.artist_id, r.year, r.duration⟩

/-- Projection of a song record to a `songs_table_view` row
    (etl.py line 76). -/
def viewRowOf (r : SongRecord) : SongViewRow :=
  ⟨r.song_id, r.title, r.artist_id, r.year, r.duration, r.artist_name⟩

/-- Projection of a song record to an `artists` row (etl.py lines 83-84). -/
def artistRowOf (r : SongRecord) : ArtistsRow :=
  ⟨r.artist_id, r.artist_name, r.artist_location, r.artist_latitude,
    r.artist_longitude⟩

/-- The `songs` table: select five columns then distinct (etl.py line 73). -/
def songs_table (songs : List SongRecord) : List SongsRow :=
  (songs.map songRowOf).dedup

/-- Contents of the temp view `songs_table_view`: select six columns then
    distinct (etl.py line 76). -/
def songs_table_view (songs : List SongRecord) : List SongViewRow :=
  (songs.map viewRowOf).dedup

/-- The `artists` table: select five columns then distinct
    (etl.py lines 83-84). -/
def artists_table (songs : List SongRecord) : List ArtistsRow :=
  (songs.map artistRowOf).dedup

/-- The song pipeline outputs (etl.py lines 42-87): the `songs` table, the
    `artists` table, and the registered view contents, all from the same
    input dataframe. -/
def process_song_data (songs : List SongRecord) :
    List SongsRow × List ArtistsRow × List SongViewRow :=
  (songs_table songs, artists_table songs, songs_table_view songs)

/-- The `users` table of the log pipeline: select with aliases then distinct
    (etl.py lines 124-128), computed from the NextSong-filtered dataframe. -/
def users_table_of (df : List LogRecord) : List UsersRow :=
  (df.map fun r => UsersRow.mk r.userId r.firstName r.lastName r.gender r.level).dedup

/-- Log row after the time-derivation block (etl.py lines 143-149): the raw
    record plus the start_time column and the six columns derived from it.
    Modelled from the spec for the start_time column itself: line 143 is
    malformed as written, and the spec directs that start_time be derived
    solely by casting ts/1000 to a timestamp type, which is also the
    right-hand side expression present in the malformed line.  (The
    timestamp and start_time columns added by the dead udf lines 134-139 are
    overwritten or unused and carry no further information, so they are not
    modelled as separate fields.) -/
structure LogRow extends LogRecord where
  start_time : ℚ
  year : ℕ
  month : ℕ
  week : ℕ
  weekday : String
  day : ℕ
  hour : ℕ
deriving DecidableEq

/-- Add the start_time column and the derived time columns to a filtered log
    record (etl.py lines 143-149, with line 143 corrected as the spec
    directs). -/
def addTimeCols (r : LogRecord) : LogRow :=
  let st := startTimeOf r.ts
  { toLogRecord := r
    start_time := st
    year := yearOf st
    month := monthOf st
    week := weekOf st
    weekday := weekdayOf st
    day := dayOf st
    hour := hourOf st }

/-- The NextSong-filtered log dataframe (etl.py line 117) with the derived
    time columns added. -/
def nextSongRows (logs : List LogRecord) : List LogRow :=
  (logs.filter fun r => r.page == "NextSong").map addTimeCols

/-- The `time` table: select the seven time columns then distinct
    (etl.py lines 151-152). -/
def time_table_of (df : List LogRow) : List TimeRow :=
  (df.map fun r =>
    TimeRow.mk r.start_time r.hour r.day r.week r.weekday r.year r.month).dedup

/-- Join condition of the songplays join (etl.py lines 165-167): exact
    equality of (song, artist, length) with (title, artist_name, duration). -/
def matchesSong (e : LogRow) (s : SongViewRow) : Bool :=
  decide (e.song = s.title) && decide (e.artist = s.artist_name) &&
    decide (e.length = s.duration)

/-- Column selection applied to one joined row (etl.py lines 169-171):
    start_time, userId, level, song_id, artist_id, sessionId, location,
    userAgent, and year/month taken from the log side of the join. -/
def joinRow (e : LogRow) (s : SongViewRow) : SongplaysRow :=
  ⟨e.start_time, e.userId, e.level, s.song_id, s.artist_id, e.sessionId,
    e.location, e.userAgent, e.year, e.month⟩

/-- The `songplays` table before the synthetic id column (etl.py lines
    165-171): inner join of the log dataframe with the song view on exact
    (song, artist, length) equality, then distinct, then the column
    selection. -/
def songplays_of (df : List LogRow) (song_df : List SongViewRow) :
    List SongplaysRow :=
  ((df.flatMap fun e =>
      (song_df.filter (matchesSong e)).map fun s => (e, s)).dedup).map
    fun p => joinRow p.1 p.2

/-- Attach synthetic ids produced by monotonically_increasing_id
    (etl.py line 172).  The engine-chosen id of the row at position `i` is
    modelled as `g i` for an arbitrary function `g`, since the ids depend on
    the run and on the physical partitioning. -/
def attachIds (g : ℕ → ℕ) : ℕ → List SongplaysRow → List (ℕ × SongplaysRow)
  | _, [] => []
  | i, r :: rs => (g i, r) :: attachIds g (i + 1) rs

/-- Python run-time error raised by the malformed statement. -/
inductive PyError where
  | typeErrorStrNotCallable
deriving DecidableEq

/-- Line 143 of etl.py as written:
      df=df.withColumn(<string start_time>(df[<ts>]/1000).cast(<timestamp>))
    misses the comma after the column name, so the string literal is applied
    to the cast column as a function and Python raises TypeError.  The step
    never produces a dataframe. -/
def startTimeDefective (df : List LogRecord) : Except PyError (List LogRecord) :=
  Except.error PyError.typeErrorStrNotCallable

/-- The log pipeline as written (etl.py lines 92-176).  The `users` table is
    selected and written (lines 124-131) before the defective statement, and
    everything from line 143 on lives inside an `Except` computation: the
    time-table derivation, the join and the songplays write run only if the
    start_time step succeeds, which it never does. -/
def process_log_data (g : ℕ → ℕ) (logs : List LogRecord)
    (view : List SongViewRow) :
    List UsersRow × Except PyError (List TimeRow × List (ℕ × SongplaysRow)) :=
  let df := logs.filter fun r => r.page == "NextSong"
  let users := users_table_of df
  let rest : Except PyError (List TimeRow × List (ℕ × SongplaysRow)) := do
    let df2 ← startTimeDefective df
    let df3 := df2.map addTimeCols
    pure (time_table_of df3, attachIds g 0 (songplays_of df3 view))
  (users, rest)

/-- Modelled from the spec: the log pipeline with line 143 corrected as the
    spec directs (derive start_time solely via casting ts/1000 to a
    timestamp type).  Everything else is etl.py lines 92-176 as written. -/
def process_log_data_fixed (g : ℕ → ℕ) (logs : List LogRecord)
    (view : List SongViewRow) :
    List UsersRow × List TimeRow × List (ℕ × SongplaysRow) :=
  let df := logs.filter fun r => r.page == "NextSong"
  let users := users_table_of df
  let df2 := df.map addTimeCols
  (users, time_table_of df2, attachIds g 0 (songplays_of df2 view))

/-- Projection discarding the synthetic songplay_id column. -/
def dropId (p : ℕ × SongplaysRow) : SongplaysRow := p.2

/-- Overwrite-mode write (mode given to every writer in etl.py): the stored
    contents are replaced, independently of what was stored before. -/
def overwrite {α : Type} (old new : List α) : List α := new

/-- Contents of the five output directories under the destination root. -/
structure Store where
  songs : List SongsRow
  artists : List ArtistsRow
  users : List UsersRow
  time : List TimeRow
  songplays : List (ℕ × SongplaysRow)
deriving DecidableEq

/-- One whole run of main (etl.py lines 196-201) with line 143 corrected as
    the spec directs: the song stage runs first and its view feeds the log
    stage; every table is written in overwrite mode over the previous store
    contents.  `g` is the engine-chosen id assignment of this run. -/
def runJob (g : ℕ → ℕ) (songsIn : List SongRecord) (logsIn : List LogRecord)
    (st : Store) : Store :=
  let songOut := process_song_data songsIn
  let logOut := process_log_data_fixed g logsIn songOut.2.2
  { songs := overwrite st.songs songOut.1
    artists := overwrite st.artists songOut.2.1
    users := overwrite st.users logOut.1
    time := overwrite st.time logOut.2.1
    songplays := overwrite st.songplays logOut.2.2 }

/-- The dead first select of the log pipeline (etl.py line 121): the columns
    (userId, firstName, lastName, gender, level) without aliases, distinct,
    bound to a local name that is immediately shadowed and never written. -/
def dead_select (df : List LogRecord) :
    List (String × String × String × String × String) :=
  (df.map fun r => (r.userId, r.firstName, r.lastName, r.gender, r.level)).dedup

/-- The log pipeline (line 143 corrected) with the dead select of line 121
    kept: it is computed (first component) but feeds none of the outputs
    (second component). -/
def log_outputs_with_dead (g : ℕ → ℕ) (logs : List LogRecord)
    (view : List SongViewRow) :
    List (String × String × String × String × String) ×
      (List UsersRow × List TimeRow × List (ℕ × SongplaysRow)) :=
  let df := logs.filter fun r => r.page == "NextSong"
  let dead := dead_select df
  let users := users_table_of df
  let df2 := df.map addTimeCols
  (dead, users, time_table_of df2, attachIds g 0 (songplays_of df2 view))

/-- Observable I/O actions of the job, in source-statement order. -/
inductive Ev where
  | readSongData
  | createView
  | writeSongs
  | writeArtists
  | readLogData
  | writeUsers
  | writeTime
  | readView
  | writeSongplays
deriving DecidableEq

/-- Action order of process_song_data (etl.py lines 70, 76, 79, 87): the view
    is registered once, before the songs and artists writes. -/
def song_stage_trace : List Ev :=
  [Ev.readSongData, Ev.createView, Ev.writeSongs, Ev.writeArtists]

/-- Action order of process_log_data (etl.py lines 114, 131, 157, 161, 176):
    the view is only read, never registered, and is read after the time
    write and before the songplays write. -/
def log_stage_trace : List Ev :=
  [Ev.readLogData, Ev.writeUsers, Ev.writeTime, Ev.readView, Ev.writeSongplays]

/-- Action order of main (etl.py lines 200-201): the whole song stage runs
    strictly before the whole log stage. -/
def main_trace : List Ev := song_stage_trace ++ log_stage_trace

/-- Mode and partitioning of one output write. -/
structure WriteSpec where
  table : String
  mode : String
  partitionBy : List String
deriving DecidableEq

/-- The five writes of the job in source order (etl.py lines 79, 87, 131,
    157, 176), each with its mode string and its partitionBy columns. -/
def pipeline_writes : List WriteSpec :=
  [⟨"songs", "overwrite", ["year", "artist_id"]⟩,
   ⟨"artists", "overwrite", []⟩,
   ⟨"users", "overwrite", []⟩,
   ⟨"time", "overwrite", ["year", "month"]⟩,
   ⟨"songplays", "overwrite", ["year", "month"]⟩]

/-- The log record of the end-to-end example of the spec (length 10.5 is the
    rational 21/2). -/
def exampleLog : LogRecord :=
  { page := "NextSong"
    song := "X"
    artist := "Y"
    length := mkRat 21 2
    ts := 1541105830796
    userId := "10"
    firstName := "F"
    lastName := "L"
    gender := "F"
    level := "free"
    sessionId := 42
    location := "loc"
    userAgent := "agent" }

/-- The song record of the end-to-end example of the spec. -/
def exampleSong : SongRecord :=
  { song_id := "S1"
    title := "X"
    artist_id := "A1"
    year := 2000
    duration := mkRat 21 2
    artist_name := "Y"
    artist_location := "somewhere"
    artist_latitude := mkRat 0 1
    artist_longitude := mkRat 0 1 }

/-- Two song records sharing an artist_id but differing in artist_location:
    input refuting uniqueness of artist_id in the artists table. -/
def artistDupA : SongRecord :=
  { song_id := "SA"
    title := "TA"
    artist_id := "A1"
    year := 1999
    duration := mkRat 200 1
    artist_name := "N"
    artist_location := "LocX"
    artist_latitude := mkRat 0 1
    artist_longitude := mkRat 0 1 }

/-- Second record of the artist_id duplication input. -/
def artistDupB : SongRecord :=
  { artistDupA with song_id := "SB", title := "TB", artist_location := "LocY" }

/-- Helper: every row of dedup-of-map comes from a source element. -/
theorem mem_dedup_map {α β : Type} [DecidableEq α] [DecidableEq β]
    {f : α → β} {l : List α} {b : β} (h : b ∈ (l.map f).dedup) :
    ∃ a ∈ l, b = f a := by
  obtain ⟨a, ha, hab⟩ := List.mem_map.mp (List.mem_dedup.mp h)
  exact ⟨a, ha, hab.symm⟩

/-- Helper: provenance of a songplays row: it is the selection of a joined
    pair whose two sides satisfy the exact-match join condition. -/
theorem mem_songplays_src {df : List LogRow} {view : List SongViewRow}
    {row : SongplaysRow} (h : row ∈ songplays_of df view) :
    ∃ e ∈ df, ∃ s ∈ view,
      e.song = s.title ∧ e.artist = s.artist_name ∧ e.length = s.duration ∧
        row = joinRow e s := by
  unfold songplays_of at h
  obtain ⟨p, hp, hrow⟩ := List.mem_map.mp h
  obtain ⟨e, he, hpe⟩ := List.mem_flatMap.mp (List.mem_dedup.mp hp)
  obtain ⟨s, hsf, hps⟩ := List.mem_map.mp hpe
  obtain ⟨hs, hm⟩ := List.mem_filter.mp hsf
  unfold matchesSong at hm
  simp only [Bool.and_eq_true, decide_eq_true_eq] at hm
  subst hps
  exact ⟨e, he, s, hs, hm.1.1, hm.1.2, hm.2, hrow.symm⟩

/-- Helper: provenance of a transformed log row: it is `addTimeCols` of an
    input event whose page column is NextSong. -/
theorem mem_nextSongRows {logs : List LogRecord} {e2 : LogRow}
    (h : e2 ∈ nextSongRows logs) :
    ∃ e ∈ logs, e.page = "NextSong" ∧ e2 = addTimeCols e := by
  unfold nextSongRows at h
  obtain ⟨e, he, heq⟩ := List.mem_map.mp h
  obtain ⟨hmem, hpage⟩ := List.mem_filter.mp he
  exact ⟨e, hmem, by simpa using hpage, heq.symm⟩

/-- Helper: ids attached by `attachIds` change no other column: dropping the
    id column recovers the selected rows, whatever the id assignment is. -/
theorem attachIds_map_snd (g : ℕ → ℕ) (i : ℕ) (rows : List SongplaysRow) :
    (attachIds g i rows).map Prod.snd = rows := by
  induction rows generalizing i with
  | nil => rfl
  | cons r rs ih => simp [attachIds, ih]

/-- C1: for every input (and every engine id assignment), the log pipeline as
    written fails at the start_time derivation of etl.py line 143 with a
    TypeError, so the time-table derivation, the join and the songplays write
    downstream of it are never reached: the whole post-143 computation is the
    error, not a result. -/
theorem log_pipeline_fails_at_start_time (g : ℕ → ℕ) (logs : List LogRecord)
    (view : List SongViewRow) :
    (process_log_data g logs view).2 =
      Except.error PyError.typeErrorStrNotCallable := rfl

/-- C2: a songplays row exists only for an event-song pair in exact
    agreement: every row of the songplays table arises from an input event
    with page NextSong and a view row whose (title, artist_name, duration)
    exactly equal the event (song, artist, length); an event with no such
    exact match therefore contributes no row (it is silently dropped by the
    inner join). -/
theorem songplays_row_requires_exact_match (logs : List LogRecord)
    (view : List SongViewRow) (row : SongplaysRow)
    (h : row ∈ songplays_of (nextSongRows logs) view) :
    ∃ e ∈ logs, e.page = "NextSong" ∧ ∃ s ∈ view,
      s.title = e.song ∧ s.artist_name = e.artist ∧ s.duration = e.length ∧
        row = joinRow (addTimeCols e) s := by
  obtain ⟨e2, he2, s, hs, h1, h2, h3, hrow⟩ := mem_songplays_src h
  obtain ⟨e, he, hpage, heq⟩ := mem_nextSongRows he2
  subst heq
  exact ⟨e, he, hpage, s, hs, h1.symm, h2.symm, h3.symm, hrow⟩

/-- Witness for C2 at a concrete input on which the hypothesis holds. -/
theorem songplays_row_requires_exact_match_witness :
    ∃ e ∈ [exampleLog], e.page = "NextSong" ∧
      ∃ s ∈ songs_table_view [exampleSong],
        s.title = e.song ∧ s.artist_name = e.artist ∧
          s.duration = e.length ∧
          joinRow (addTimeCols exampleLog) (viewRowOf exampleSong) =
            joinRow (addTimeCols e) s :=
  songplays_row_requires_exact_match [exampleLog]
    (songs_table_view [exampleSong])
    (joinRow (addTimeCols exampleLog) (viewRowOf exampleSong)) (by decide)

/-- C3: referential integrity of the fact table: when both pipelines run on
    the same song input, every songplays row references a song_id present in
    the songs table and an artist_id present in the artists table written by
    process_song_data. -/
theorem songplays_referential_integrity (songs : List SongRecord)
    (logs : List LogRecord) (row : SongplaysRow)
    (h : row ∈ songplays_of (nextSongRows logs) (songs_table_view songs)) :
    (∃ srow ∈ songs_table songs, srow.song_id = row.song_id) ∧
      (∃ arow ∈ artists_table songs, arow.artist_id = row.artist_id) := by
  obtain ⟨e2, _, s, hs, _, _, _, hrow⟩ := mem_songplays_src h
  obtain ⟨r, hr, hsr⟩ := mem_dedup_map hs
  subst hrow
  subst hsr
  constructor
  · exact ⟨songRowOf r, List.mem_dedup.mpr (List.mem_map_of_mem _ hr), rfl⟩
  · exact ⟨artistRowOf r, List.mem_dedup.mpr (List.mem_map_of_mem _ hr), rfl⟩

/-- Witness for C3 at a concrete input on which the hypothesis holds. -/
theorem songplays_referential_integrity_witness :
    (∃ srow ∈ songs_table [exampleSong],
        srow.song_id =
          (joinRow (addTimeCols exampleLog) (viewRowOf exampleSong)).song_id) ∧
      (∃ arow ∈ artists_table [exampleSong],
        arow.artist_id =
          (joinRow (addTimeCols exampleLog) (viewRowOf exampleSong)).artist_id) :=
  songplays_referential_integrity [exampleSong] [exampleLog]
    (joinRow (addTimeCols exampleLog) (viewRowOf exampleSong)) (by decide)

/-- C4 counterexample: at ts = 1541105830796 the claim is false: the derived
    start_time is not the timestamp of 2018-11-01T21:37:10 UTC and the
    derived hour is not 21 (the instant is 2018-11-01T20:57:10.796 UTC). -/
theorem time_example_claim_false :
    ¬ (startTimeOf 1541105830796 =
        mkRat (secondsOfCivil 2018 11 1 21 37 10 : ℕ) 1 ∧
      yearOf (startTimeOf 1541105830796) = 2018 ∧
      monthOf (startTimeOf 1541105830796) = 11 ∧
      dayOf (startTimeOf 1541105830796) = 1 ∧
      hourOf (startTimeOf 1541105830796) = 21) := by decide

/-- C4 amended: for ts = 1541105830796 the derived start_time is
    2018-11-01T20:57:10.796 UTC (epoch second 1541105830 plus the 796
    milliseconds kept by the cast), and the derived year, month, day, hour,
    minute and second columns are 2018, 11, 1, 20, 57 and 10. -/
theorem time_example_amended :
    startTimeOf 1541105830796 =
      mkRat (secondsOfCivil 2018 11 1 20 57 10 * 1000 + 796 : ℕ) 1000 ∧
    yearOf (startTimeOf 1541105830796) = 2018 ∧
    monthOf (startTimeOf 1541105830796) = 11 ∧
    dayOf (startTimeOf 1541105830796) = 1 ∧
    hourOf (startTimeOf 1541105830796) = 20 ∧
    minuteOf (startTimeOf 1541105830796) = 57 ∧
    secondOf (startTimeOf 1541105830796) = 10 := by decide

/-- C5: end-to-end example: with exactly the example log record and the
    example song record, running the song pipeline and then the (corrected)
    log pipeline yields a songplays table containing a row with
    song_id = S1, artist_id = A1, year = 2018 and month = 11, the year and
    month coming from the event timestamp rather than from the song year
    2000. -/
theorem end_to_end_example :
    ∃ r ∈ songplays_of (nextSongRows [exampleLog])
        (songs_table_view [exampleSong]),
      r.song_id = "S1" ∧ r.artist_id = "A1" ∧ r.year = 2018 ∧
        r.month = 11 := by decide

/-- C6 counterexample: on two song records sharing artist_id A1 but with
    different artist_location values, the artists table keeps two distinct
    rows with the same artist_id: full-row distinct does not make artist_id
    unique. -/
theorem artists_artist_id_not_unique :
    ¬ (∀ a ∈ artists_table [artistDupA, artistDupB],
        ∀ b ∈ artists_table [artistDupA, artistDupB],
          a.artist_id = b.artist_id → a = b) := by decide

/-- C6 amended: for every input set of song records, after deduplication the
    artists table holds no two identical rows (full-row uniqueness); two
    distinct rows may still share an artist_id, as the counterexample
    shows. -/
theorem artists_rows_nodup (songs : List SongRecord) :
    (artists_table songs).Nodup :=
  List.nodup_dedup _

/-- C7: rerunning the whole job on unchanged input over the store left by the
    first run reproduces the songs, artists, users and time tables exactly,
    whatever id assignments the two runs use, because every write is in
    overwrite mode and every table other than songplays is a deterministic
    function of the input; the songplays rows also agree except possibly in
    the synthetic songplay_id column. -/
theorem rerun_idempotent_up_to_songplay_id (g1 g2 : ℕ → ℕ)
    (songsIn : List SongRecord) (logsIn : List LogRecord) (st : Store) :
    (runJob g1 songsIn logsIn st).songs =
        (runJob g2 songsIn logsIn (runJob g1 songsIn logsIn st)).songs ∧
      (runJob g1 songsIn logsIn st).artists =
        (runJob g2 songsIn logsIn (runJob g1 songsIn logsIn st)).artists ∧
      (runJob g1 songsIn logsIn st).users =
        (runJob g2 songsIn logsIn (runJob g1 songsIn logsIn st)).users ∧
      (runJob g1 songsIn logsIn st).time =
        (runJob g2 songsIn logsIn (runJob g1 songsIn logsIn st)).time ∧
      (runJob g1 songsIn logsIn st).songplays.map dropId =
        (runJob g2 songsIn logsIn
          (runJob g1 songsIn logsIn st)).songplays.map dropId := by
  refine ⟨rfl, rfl, rfl, rfl, ?_⟩
  show (attachIds g1 0 _).map dropId = (attachIds g2 0 _).map dropId
  rw [show dropId = Prod.snd from rfl, attachIds_map_snd, attachIds_map_snd]

/-- C8: execution is strictly sequential: the main trace is the whole song
    stage followed by the whole log stage, the view registration occurs
    exactly once and only in the song stage, the log stage only reads the
    view, and every registration index precedes every read index in the main
    trace. -/
theorem main_stage_ordering :
    main_trace = song_stage_trace ++ log_stage_trace ∧
      main_trace.countP (fun e => decide (e = Ev.createView)) = 1 ∧
      Ev.createView ∈ song_stage_trace ∧
      log_stage_trace.countP (fun e => decide (e = Ev.createView)) = 0 ∧
      Ev.readView ∈ log_stage_trace ∧
      song_stage_trace.countP (fun e => decide (e = Ev.readView)) = 0 ∧
      (∀ i : Fin main_trace.length, ∀ j : Fin main_trace.length,
        main_trace.get i = Ev.createView → main_trace.get j = Ev.readView →
          i.val < j.val) := by decide

/-- C9: every one of the five output writes uses overwrite mode, and the
    partitioning is songs by (year, artist_id), artists unpartitioned, time
    by (year, month) and songplays by (year, month) (users is likewise
    unpartitioned). -/
theorem writes_overwrite_and_partitioning :
    (∀ w ∈ pipeline_writes, w.mode = "overwrite") ∧
      (∀ w ∈ pipeline_writes,
        w.table = "songs" → w.partitionBy = ["year", "artist_id"]) ∧
      (∀ w ∈ pipeline_writes, w.table = "artists" → w.partitionBy = []) ∧
      (∀ w ∈ pipeline_writes, w.table = "users" → w.partitionBy = []) ∧
      (∀ w ∈ pipeline_writes,
        w.table = "time" → w.partitionBy = ["year", "month"]) ∧
      (∀ w ∈ pipeline_writes,
        w.table = "songplays" → w.partitionBy = ["year", "month"]) := by decide

/-- C10: the first select of (userId, firstName, lastName, gender, level) at
    etl.py line 121 is dead: the pipeline that computes it produces, for
    every input and id assignment, exactly the users, time and songplays
    outputs of the pipeline without it. -/
theorem dead_select_no_effect (g : ℕ → ℕ) (logs : List LogRecord)
    (view : List SongViewRow) :
    (log_outputs_with_dead g logs view).2 = process_log_data_fixed g logs view :=
  rfl
